import Mathlib

/-!
Verification of the compliance-checker backend (`src/backend/server.js`)
against its natural-language specification.  The server's check and fix
routines are shallowly embedded as pure Lean functions: every external
effect (HTTP fetch, SQL query, environment variable) becomes an explicit
input parameter, and every response or issued statement becomes part of
the returned value.  JavaScript truthiness on strings (undefined / null /
"" are falsy) is modelled with `Option String` plus an emptiness test.

The file is organized as definitions first (the embedding), then the
theorems settling each specification claim.
-/

namespace SCC

/-! ## Definitions -/

/-! ### String helpers (substring and prefix tests over character lists) -/

/-- `listLead pat s` holds when `pat` is an initial segment of `s`. -/
def listLead : List Char → List Char → Bool
  | [], _ => true
  | _ :: _, [] => false
  | a :: as, b :: bs => a == b && listLead as bs

/-- `listHas pat s` holds when `pat` occurs contiguously inside `s`. -/
def listHas (pat : List Char) : List Char → Bool
  | [] => listLead pat []
  | b :: bs => listLead pat (b :: bs) || listHas pat bs

/-- JavaScript `s.includes(pat)`: substring containment. -/
def strContains (s pat : String) : Bool :=
  listHas pat.data s.data

/-- JavaScript `s.startsWith(pat)`. -/
def strStarts (s pat : String) : Bool :=
  listLead pat.data s.data

/-- JavaScript truthiness for an optional string: `undefined`, `null`
and `""` are all falsy. -/
def jsFalsy : Option String → Bool
  | none => true
  | some s => s.isEmpty

/-- JavaScript `x || d` for an optional string `x` and default `d`. -/
def jsOrStr (x : Option String) (d : String) : String :=
  match x with
  | none => d
  | some s => if s.isEmpty then d else s

/-- JavaScript `s.toUpperCase()` (ASCII, character by character). -/
def strUpper (s : String) : String :=
  ⟨s.data.map Char.toUpper⟩

/-- JavaScript `s.toLowerCase()` (ASCII, character by character). -/
def strLower (s : String) : String :=
  ⟨s.data.map Char.toLower⟩

/-! ### MFA check (`runMFACheck`, server.js lines 160-218)

The only external effect is `supabase.auth.admin.listUsers()`; its outcome
is the `Except` input: `.error msg` models a rejected call or an error
object (whose `.message` is `msg`), `.ok users` the returned user list. -/

/-- One entry of a user's `factors` array. -/
structure Factor where
  status : String
deriving Repr, DecidableEq

/-- A user as returned by the admin user listing.  `factors` is `none`
when the field is absent (`undefined`) on the wire. -/
structure AuthUser where
  id : String
  email : Option String
  phone : Option String
  factors : Option (List Factor)
deriving Repr, DecidableEq

/-- One entry of `mfaResults.users`.  In the JS source `mfa_enabled` is
the truthy value `user.factors && user.factors.some(...)`; we model its
truthiness as a `Bool` (an absent `factors` array gives a falsy value). -/
structure MFAUserEntry where
  id : String
  email : Option String
  phone : Option String
  mfa_enabled : Bool
deriving Repr, DecidableEq

/-- The `mfaResults` record. -/
structure MFAResult where
  checkName : String
  users : List MFAUserEntry
  overallStatus : String
  error : Option String
  message : Option String
deriving Repr, DecidableEq

/-- `user.factors && user.factors.some(f => f.status === "verified")`. -/
def isMfaEnabled (u : AuthUser) : Bool :=
  match u.factors with
  | none => false
  | some fs => fs.any fun f => f.status == "verified"

/-- `runMFACheck`: the `try` body maps users and aggregates, the `catch`
turns any failure into an `ERROR` record with the message preserved. -/
def runMFACheck (input : Except String (List AuthUser)) : MFAResult :=
  match input with
  | .error msg =>
      { checkName := "Multi-Factor Authentication (MFA)"
        users := []
        overallStatus := "ERROR"
        error := some msg
        message := none }
  | .ok users =>
      if users.length > 0 then
        { checkName := "Multi-Factor Authentication (MFA)"
          users := users.map fun u =>
            { id := u.id, email := u.email, phone := u.phone
              mfa_enabled := isMfaEnabled u }
          overallStatus := if users.all isMfaEnabled then "PASSING" else "FAILING"
          error := none
          message := none }
      else
        { checkName := "Multi-Factor Authentication (MFA)"
          users := []
          overallStatus := "N/A"
          error := none
          message := some "No users found in the project." }

/-- A sample user with a single unverified factor. -/
def sampleUnverifiedUser : AuthUser :=
  { id := "u1", email := some "a@b.c", phone := none, factors := some [{ status := "unverified" }] }

/-! ### RLS check (`runRLSCheck`, server.js lines 220-307)

The check opens a `pg` pool on the supplied connection string (never
inspecting the string itself), lists the tables of the `public` schema,
and for each table reads `pg_class.relrowsecurity` and its `pg_policies`
rows.  The whole sequence of queries is modelled by the `Except` input:
`.error msg` is a query/connection failure with driver message `msg`,
`.ok tables` the gathered per-table data. -/

/-- One `pg_policies` row (the columns the check uses). -/
structure PolicyRow where
  policyname : String
  cmd : Option String
deriving Repr, DecidableEq

/-- The `policyCounts` object: exactly the four recognized buckets. -/
structure PolicyCounts where
  SELECT : Nat
  INSERT : Nat
  UPDATE : Nat
  DELETE : Nat
deriving Repr, DecidableEq

/-- The `for (const policy of policies)` loop body: bump the bucket named
by `policy.cmd?.toUpperCase()` when it is one of the four keys of
`policyCounts` (`hasOwnProperty`), otherwise leave the tally unchanged. -/
def bumpCounts (acc : PolicyCounts) (p : PolicyRow) : PolicyCounts :=
  match p.cmd with
  | none => acc
  | some c =>
      if strUpper c == "SELECT" then { acc with SELECT := acc.SELECT + 1 }
      else if strUpper c == "INSERT" then { acc with INSERT := acc.INSERT + 1 }
      else if strUpper c == "UPDATE" then { acc with UPDATE := acc.UPDATE + 1 }
      else if strUpper c == "DELETE" then { acc with DELETE := acc.DELETE + 1 }
      else acc

/-- The tally of a table's policy rows. -/
def tallyPolicies (ps : List PolicyRow) : PolicyCounts :=
  ps.foldl bumpCounts ⟨0, 0, 0, 0⟩

/-- The per-table data the queries return: the table name from
`pg_tables`, the boolean `rlsRes.rows[0]?.relrowsecurity === true`, and
the `pg_policies` rows for the table. -/
structure TableInfo where
  tablename : String
  relrowsecurity : Bool
  policies : List PolicyRow
deriving Repr, DecidableEq

/-- One entry of `rlsResults.tables`. -/
structure RLSTableEntry where
  name : String
  rls_enabled : Bool
  recommendation : Option String
  policy_counts : PolicyCounts
  current_policies : List PolicyRow
deriving Repr, DecidableEq

/-- The `rlsResults` record. -/
structure RLSResult where
  checkName : String
  overallStatus : String
  tables : List RLSTableEntry
  error : Option String
  message : Option String
deriving Repr, DecidableEq

/-- The entry pushed onto `rlsResults.tables` for one table. -/
def mkRLSEntry (t : TableInfo) : RLSTableEntry :=
  { name := t.tablename
    rls_enabled := t.relrowsecurity
    recommendation :=
      if t.relrowsecurity then none
      else some "Enable RLS for this table to restrict access."
    policy_counts := tallyPolicies t.policies
    current_policies := t.policies }

/-- `runRLSCheck`.  The connection string is handed to the pool without
any inspection (the source has no branch on it), so the result depends
only on the query outcome; a failure yields the `catch` branch
(`ERROR`, driver message preserved). -/
def runRLSCheck (connectionString : Option String)
    (queryEnv : Except String (List TableInfo)) : RLSResult :=
  match queryEnv with
  | .error msg =>
      { checkName := "Row Level Security (RLS)"
        overallStatus := "ERROR"
        tables := []
        error := some msg
        message := none }
  | .ok tables =>
      if tables.isEmpty then
        { checkName := "Row Level Security (RLS)"
          overallStatus := "N/A"
          tables := []
          error := none
          message := some "No tables found in public schema." }
      else
        { checkName := "Row Level Security (RLS)"
          overallStatus :=
            if tables.all (fun t => t.relrowsecurity) then "PASSING" else "FAILING"
          tables := tables.map mkRLSEntry
          error := none
          message := none }

/-- Number of rows of `ps` whose upper-cased command equals `k`. -/
def cntCmd (k : String) (ps : List PolicyRow) : Nat :=
  (ps.filter fun p => p.cmd.map strUpper == some k).length

/-- A sample table: RLS disabled, one policy of unrecognized kind `ALL`
(dropped from the tally) and one lower-case `select` policy (counted in
the SELECT bucket). -/
def sampleTable : TableInfo :=
  { tablename := "orders", relrowsecurity := false
    policies := [{ policyname := "p_all", cmd := some "ALL" },
                 { policyname := "p_sel", cmd := some "select" }] }

/-! ### PITR check (`runPITR`, server.js lines 309-378)

External effects: the module-level environment variable `SUPABASE_PAT`
(the `managementToken` parameter; `undefined` and `""` are falsy) and the
`GET https://api.supabase.com/v1/projects` fetch, whose outcome is the
`Except` input (`.error (code, body)` a non-ok response with its HTTP
status code and body text, `.ok projects` the parsed project list).
The second component of the result records whether the fetch was issued. -/

/-- A project addon as returned by the management API. -/
structure Addon where
  type : Option String
  status : Option String
  metadata : Option String
deriving Repr, DecidableEq

/-- A project as returned by the management API. -/
structure PITRProject where
  name : String
  id : String
  addons : Option (List Addon)
deriving Repr, DecidableEq

/-- One entry of `pitrResults.details.projects`. -/
structure PITRProjEntry where
  name : String
  ref : String
  pitrEnabled : Bool
  pitrAddon : Option Addon
  status : String
  metadata : Option String
deriving Repr, DecidableEq

/-- The `pitrResults` record (`details.projects` is `none` until the
success path assigns it). -/
structure PITRResult where
  checkName : String
  status : String
  message : String
  projects : Option (List PITRProjEntry)
deriving Repr, DecidableEq

/-- `addon.type && addon.type.toLowerCase().includes("pitr")`. -/
def addonIsPitr (a : Addon) : Bool :=
  match a.type with
  | none => false
  | some t => !t.isEmpty && strContains (strLower t) "pitr"

/-- The per-project mapping of the PITR check.  `metadata` keeps the
addon's metadata when present (`pitrAddon?.metadata || {}`: the falsy
default empty object is modelled as `none`). -/
def mkPitrEntry (p : PITRProject) : PITRProjEntry :=
  let pitrAddon := (p.addons.getD []).find? addonIsPitr
  { name := p.name
    ref := p.id
    pitrEnabled := pitrAddon.isSome
    pitrAddon := pitrAddon
    status := jsOrStr (pitrAddon.bind fun a => a.status) "not_enabled"
    metadata := pitrAddon.bind fun a => a.metadata }

/-- `runPITR`: a missing token throws before the fetch; a non-ok fetch
throws with the composed message; both are converted by the `catch` into
`status = "ERROR"` with the message preserved.  Success maps the projects
and fails the aggregate when some project lacks the addon. -/
def runPITR (managementToken : Option String)
    (fetchEnv : Except (Nat × String) (List PITRProject)) : PITRResult × Bool :=
  if jsFalsy managementToken then
    ({ checkName := "Point-in-Time Recovery (PITR)"
       status := "ERROR"
       message := "Management API token (SUPABASE_PAT) is not configured"
       projects := none }, false)
  else
    match fetchEnv with
    | .error (code, body) =>
        ({ checkName := "Point-in-Time Recovery (PITR)"
           status := "ERROR"
           message := "Failed to fetch projects: " ++ toString code ++ " " ++ body
           projects := none }, true)
    | .ok projs =>
        let entries := projs.map mkPitrEntry
        if entries.any fun e => !e.pitrEnabled then
          ({ checkName := "Point-in-Time Recovery (PITR)"
             status := "FAILING"
             message := "Some projects do not have PITR enabled."
             projects := some entries }, true)
        else
          ({ checkName := "Point-in-Time Recovery (PITR)"
             status := "PASSING"
             message := "PITR status checked for all projects."
             projects := some entries }, true)

/-! ### Report aggregation (`POST /api/run-checks`, server.js lines 398-413)

After validation the handler awaits `Promise.all` of the three checks —
each of which catches its own failures and always resolves — and replies
with the object holding all three records. -/

/-- The aggregated response body of `/api/run-checks`. -/
structure ComplianceReport where
  mfa : MFAResult
  rls : RLSResult
  pitr : PITRResult
deriving Repr, DecidableEq

/-- The `Promise.all` join: each record is its own check's result. -/
def runChecks (mfaIn : Except String (List AuthUser)) (connStr : Option String)
    (rlsIn : Except String (List TableInfo)) (token : Option String)
    (pitrIn : Except (Nat × String) (List PITRProject)) : ComplianceReport :=
  { mfa := runMFACheck mfaIn
    rls := runRLSCheck connStr rlsIn
    pitr := (runPITR token pitrIn).1 }

/-! ### Boundary validation (the five handlers, up to their first
outbound call)

Each `...Entry` function models one Express handler from the start of its
body to the first outbound call (HTTP fetch, database pool query, or
model API call): `.reply s b` means the handler responded with HTTP
status `s` and message `b` without any outbound call, `.proceed` means
control reached the handler's first outbound call, and `.jsCrash` means
an uncaught JavaScript error was raised before any structured reply. -/

/-- Outcome of a handler's validation stage. -/
inductive HandlerOutcome where
  | reply (status : Nat) (body : String)
  | proceed
  | jsCrash (msg : String)
deriving Repr, DecidableEq

/-- The HTTP status of a `.reply`, if any. -/
def HandlerOutcome.statusCode : HandlerOutcome → Option Nat
  | .reply s _ => some s
  | _ => none

/-- `getSupabaseClient`'s scheme test (server.js line 67). -/
def schemeOk (url : String) : Bool :=
  strStarts url "http://" || strStarts url "https://"

/-- The message thrown by `getSupabaseClient` on a scheme failure. -/
def invalidUrlMsg : String :=
  "Invalid Supabase project URL format. It should start with http:// or https://"

/-- V8 message of the `TypeError` raised by dereferencing
`projectUrl.includes` when `projectUrl` is `undefined` (the property name
appears quoted in the real runtime text). -/
def undefinedIncludesMsg : String :=
  "TypeError: Cannot read properties of undefined (reading includes)"

/-- `/api/run-checks` (lines 380-400): presence guard replies 400; the
scheme failure thrown by `getSupabaseClient` inside `try` is caught and
replied as 500. -/
def runChecksEntry (projectUrl serviceKey : Option String) : HandlerOutcome :=
  if jsFalsy projectUrl || jsFalsy serviceKey then
    .reply 400 "Supabase Project URL and Service Key are required."
  else if !schemeOk (projectUrl.getD "") then
    .reply 500 ("Failed to connect to Supabase or run checks: " ++ invalidUrlMsg)
  else .proceed

/-- `/api/fix-mfa` (lines 490-504): `displayUrl` dereferences
`projectUrl` before the presence guard, so an absent `projectUrl` raises
an uncaught `TypeError`; the scheme failure from `getSupabaseClient`
lands in the handler catch as a 500 reply. -/
def fixMfaEntry (projectUrl serviceKey userId : Option String) : HandlerOutcome :=
  match projectUrl with
  | none => .jsCrash undefinedIncludesMsg
  | some url =>
      if jsFalsy (some url) || jsFalsy serviceKey || jsFalsy userId then
        .reply 400 "Project URL, Service Key, and User ID are required."
      else if !schemeOk url then
        .reply 500 ("Failed to enable MFA for user " ++ userId.getD "" ++ ": " ++ invalidUrlMsg)
      else .proceed

/-- `/api/fix-rls` (lines 426-452): `displayUrl` is guarded
(`projectUrl && ...`), `tableName` is checked for presence only, then
`projectUrl`/`serviceKey` presence; there is no scheme check — `.proceed`
goes straight to the database pool. -/
def fixRlsEntry (projectUrl serviceKey tableName : Option String) : HandlerOutcome :=
  if jsFalsy tableName then
    .reply 400 "Table Name is required."
  else if jsFalsy projectUrl || jsFalsy serviceKey then
    .reply 400 "Project URL and Service Key are required."
  else .proceed

/-- `/api/fix-pitr` (lines 567-598): unguarded `displayUrl` (crash on an
absent `projectUrl`), presence guard, then the server-side management
token guard (500); no scheme check before the first fetch. -/
def fixPitrEntry (projectUrl serviceKey projectRef managementToken : Option String) :
    HandlerOutcome :=
  match projectUrl with
  | none => .jsCrash undefinedIncludesMsg
  | some url =>
      if jsFalsy (some url) || jsFalsy serviceKey || jsFalsy projectRef then
        .reply 400 "Project URL, Service Key, and Project Ref are required."
      else if jsFalsy managementToken then
        .reply 500 "Management API token (SUPABASE_PAT) is not configured. Please set it in your environment variables."
      else .proceed

/-- `/api/ai-assist` (lines 663-689): guarded `displayUrl`, presence
guard only; no scheme check before the model API call. -/
def aiAssistEntry (projectUrl serviceKey issue : Option String) : HandlerOutcome :=
  if jsFalsy projectUrl || jsFalsy serviceKey || jsFalsy issue then
    .reply 400 "Project URL, Service Key, and Issue description are required."
  else .proceed

/-! ### RLS fix (`POST /api/fix-rls`, server.js lines 446-488) -/

/-- The enable-flag statement, built by splicing `tableName` verbatim. -/
def alterTableStmt (t : String) : String :=
  "ALTER TABLE public.\"" ++ t ++ "\" ENABLE ROW LEVEL SECURITY;"

/-- The placeholder-policy statement, built by splicing `tableName`
verbatim. -/
def createPolicyStmt (t : String) : String :=
  "CREATE POLICY \"placeholder_policy\" ON public.\"" ++ t ++ "\" FOR SELECT USING (true);"

/-- The policy row created by the placeholder statement. -/
def placeholderPolicy : PolicyRow :=
  { policyname := "placeholder_policy", cmd := some "SELECT" }

/-- The state of the target table: its RLS flag and its `pg_policies`
rows. -/
structure TableState where
  rls_enabled : Bool
  policies : List PolicyRow
deriving Repr, DecidableEq

/-- The fix body after validation: issue the enable-flag statement, query
the existing policies, and insert the placeholder iff none exist
(`existingPolicies.length === 0`).  Returns the new table state and the
issued data-modifying statements in order (the read-only policy query is
not listed). -/
def fixRlsApply (tableName : String) (s : TableState) : TableState × List String :=
  let s1 : TableState := { s with rls_enabled := true }
  if s1.policies.length == 0 then
    ({ s1 with policies := s1.policies ++ [placeholderPolicy] },
     [alterTableStmt tableName, createPolicyStmt tableName])
  else
    (s1, [alterTableStmt tableName])

/-- Number of placeholder policies among `ps`. -/
def countPlaceholder (ps : List PolicyRow) : Nat :=
  (ps.filter fun p => p.policyname == "placeholder_policy").length

/-- Number of double-quote characters in a string: each one delimits an
identifier in the issued SQL, so this measures the statement's quoting
structure. -/
def quoteCount (s : String) : Nat :=
  (s.data.filter fun c => c == '"').length

/-- Scenario C's table state: flag off, two existing SELECT policies. -/
def ordersState : TableState :=
  { rls_enabled := false
    policies := [{ policyname := "sel1", cmd := some "SELECT" },
                 { policyname := "sel2", cmd := some "SELECT" }] }

/-! ### PITR fix (`POST /api/fix-pitr`, server.js lines 588-661)

Inside the handler's `try`, `const res = await fetch(...)` (line 619)
shadows the Express response object for the whole `try` block scope.  The
already-enabled branch (line 615) runs before that declaration, so its
`res.json(...)` hits the temporal dead zone and raises a
`ReferenceError`, which the handler's `catch` (line 653, outside that
scope) converts into a 500 reply — after the audit log has already
recorded the success message.  On the mutation path the final
`res.json({...})` (line 649) is the fetch response's body parser, not an
HTTP reply, so the handler sends no response there. -/

/-- What the handler sends back (or fails to send). -/
inductive PitrFixReply where
  | json200 (message : String)
  | err500 (message : String)
  | noResponse
deriving Repr, DecidableEq

/-- One addon-mutation call (`PATCH /v1/projects/:ref/addons` with body
`[..type pitr, retention_period_days..]`). -/
structure MutationCall where
  projectRef : String
  retention_period_days : Nat
deriving Repr, DecidableEq

/-- V8 message of the temporal-dead-zone `ReferenceError` (the variable
name appears quoted in the real runtime text). -/
def tdzRefErrMsg : String := "Cannot access res before initialization"

/-- The fix body after validation.  `checkEnv` is the outcome of the
project-status fetch (`.ok addons` its parsed `addons` field);
`mutationOk`/`mutationErrText` the outcome of the addon-mutation call if
issued.  Returns the reply and the issued mutation calls in order. -/
def fixPitrCore (projectRef : String)
    (checkEnv : Except (Nat × String) (Option (List Addon)))
    (mutationOk : Bool) (mutationErrText : String) : PitrFixReply × List MutationCall :=
  match checkEnv with
  | .error (code, body) =>
      (.err500 ("Failed to enable PITR for project " ++ projectRef ++ ": " ++
        "Failed to check project status: " ++ toString code ++ " " ++ body), [])
  | .ok addons =>
      match (addons.getD []).find? addonIsPitr with
      | some _ =>
          (.err500 ("Failed to enable PITR for project " ++ projectRef ++ ": " ++ tdzRefErrMsg),
           [])
      | none =>
          if mutationOk then
            (.noResponse, [{ projectRef := projectRef, retention_period_days := 7 }])
          else
            (.err500 ("Failed to enable PITR for project " ++ projectRef ++ ": " ++
              "Failed to enable PITR: " ++ mutationErrText),
             [{ projectRef := projectRef, retention_period_days := 7 }])

/-- A PITR addon as the management API reports it. -/
def samplePitrAddon : Addon :=
  { type := some "pitr_14_days", status := some "active", metadata := none }

/-! ### Credential logging (`POST /api/run-checks`, server.js line 399)

Immediately after the presence guard the handler executes
`console.log(projectUrl, serviceKey)`, printing the admin key to the
process log on every run-checks request. -/

/-- `displayUrl` (lines 390-392): `substring(0, indexOf("."))` is the
longest dot-free leading segment. -/
def displayUrlOf (projectUrl : String) : String :=
  if strContains projectUrl "supabase.co" then
    (⟨projectUrl.data.takeWhile fun c => c != '.'⟩ : String) ++ ".supabase.co"
  else projectUrl

/-- The console lines the handler prints before running the checks: the
`logEvidence` echo (abstracted to its message text) and line 399's
`console.log(projectUrl, serviceKey)` (arguments joined by a space). -/
def runChecksConsole (projectUrl serviceKey : String) : List String :=
  ["Initiating compliance checks for project: " ++ displayUrlOf projectUrl,
   projectUrl ++ " " ++ serviceKey]

/-! ## Theorems -/

/-! ### Helper lemmas -/

/-- The empty pattern occurs in every list. -/
theorem listHas_nil (s : List Char) : listHas [] s = true := by
  cases s <;> simp [listHas, listLead]

/-- A leading occurrence survives appending on the right. -/
theorem listLead_append (pat xs ys : List Char) (h : listLead pat xs = true) :
    listLead pat (xs ++ ys) = true := by
  induction pat generalizing xs with
  | nil => simp [listLead]
  | cons a as ih =>
    cases xs with
    | nil => simp [listLead] at h
    | cons b bs =>
      simp only [listLead, Bool.and_eq_true] at h
      simp only [List.cons_append, listLead, Bool.and_eq_true]
      exact ⟨h.1, ih bs h.2⟩

/-- An occurrence inside `xs` is an occurrence inside `xs ++ ys`. -/
theorem listHas_append_left (pat xs ys : List Char) (h : listHas pat xs = true) :
    listHas pat (xs ++ ys) = true := by
  induction xs with
  | nil =>
    have : pat = [] := by
      cases pat with
      | nil => rfl
      | cons a as => simp [listHas, listLead] at h
    subst this
    simpa using listHas_nil ys
  | cons b bs ih =>
    simp only [listHas, Bool.or_eq_true] at h
    rcases h with h | h
    · simp only [List.cons_append, listHas, Bool.or_eq_true]
      exact Or.inl (listLead_append pat (b :: bs) ys h)
    · simp only [List.cons_append, listHas, Bool.or_eq_true]
      exact Or.inr (ih h)

/-- The tally equals the four per-command row counts: each bucket counts
exactly the rows of its own command kind, so rows of unrecognized kinds
land in no bucket. -/
theorem tallyPolicies_spec (ps : List PolicyRow) :
    tallyPolicies ps =
      ⟨cntCmd "SELECT" ps, cntCmd "INSERT" ps, cntCmd "UPDATE" ps, cntCmd "DELETE" ps⟩ := by
  have aux : ∀ (l : List PolicyRow) (acc : PolicyCounts),
      l.foldl bumpCounts acc =
        ⟨acc.SELECT + cntCmd "SELECT" l, acc.INSERT + cntCmd "INSERT" l,
         acc.UPDATE + cntCmd "UPDATE" l, acc.DELETE + cntCmd "DELETE" l⟩ := by
    intro l
    induction l with
    | nil => intro acc; simp [cntCmd]
    | cons p t ih =>
      intro acc
      rw [List.foldl_cons, ih]
      cases hcmd : p.cmd with
      | none => simp [bumpCounts, hcmd, cntCmd]
      | some c =>
        by_cases h1 : strUpper c = "SELECT"
        · simp [bumpCounts, hcmd, h1, cntCmd, Nat.add_assoc, Nat.add_comm 1]
        · by_cases h2 : strUpper c = "INSERT"
          · simp [bumpCounts, hcmd, h1, h2, cntCmd, Nat.add_assoc, Nat.add_comm 1]
          · by_cases h3 : strUpper c = "UPDATE"
            · simp [bumpCounts, hcmd, h1, h2, h3, cntCmd, Nat.add_assoc, Nat.add_comm 1]
            · by_cases h4 : strUpper c = "DELETE"
              · simp [bumpCounts, hcmd, h1, h2, h3, h4, cntCmd, Nat.add_assoc,
                  Nat.add_comm 1]
              · simp [bumpCounts, hcmd, h1, h2, h3, h4, cntCmd]
  have := aux ps ⟨0, 0, 0, 0⟩
  simpa [tallyPolicies] using this

/-! ### C1 -/

/-- **C1.** On a successful user enumeration: `overallStatus = PASSING`
iff the returned user list is non-empty and every entry has
`mfa_enabled = true`; an entry's `mfa_enabled` is true iff some factor of
the corresponding user has status `"verified"`; an empty list yields
`N/A` with the message `"No users found in the project."`; a non-empty
list with some entry not MFA-enabled yields `FAILING`. -/
theorem c1_mfa_status
    (users : List AuthUser) :
    ((runMFACheck (.ok users)).overallStatus = "PASSING" ↔
      (runMFACheck (.ok users)).users ≠ [] ∧
        ∀ e ∈ (runMFACheck (.ok users)).users, e.mfa_enabled = true) ∧
    ((runMFACheck (.ok users)).users =
      users.map fun u =>
        { id := u.id, email := u.email, phone := u.phone
          mfa_enabled := isMfaEnabled u }) ∧
    (∀ u : AuthUser, isMfaEnabled u = true ↔
      ∃ f ∈ u.factors.getD [], f.status = "verified") ∧
    (users = [] →
      (runMFACheck (.ok users)).overallStatus = "N/A" ∧
      (runMFACheck (.ok users)).message = some "No users found in the project.") ∧
    (users ≠ [] → ¬ (∀ u ∈ users, isMfaEnabled u = true) →
      (runMFACheck (.ok users)).overallStatus = "FAILING") := by
  refine ⟨?_, ?_, ?_, ?_, ?_⟩
  · constructor
    · intro h
      unfold runMFACheck at h ⊢
      by_cases hne : users.length > 0
      · simp only [hne, if_pos] at h ⊢
        by_cases hall : users.all isMfaEnabled
        · simp only [hall, if_pos] at h ⊢
          constructor
          · simp only [ne_eq, List.map_eq_nil_iff]
            intro hnil
            subst hnil
            simp at hne
          · intro e he
            simp only [List.mem_map] at he
            obtain ⟨u, hu, rfl⟩ := he
            exact List.all_eq_true.mp hall u hu
        · simp only [hall, if_neg, if_false] at h
          exact absurd h (by decide)
      · simp only [hne, if_neg, if_false] at h
        exact absurd h (by decide)
    · rintro ⟨hne, hall⟩
      unfold runMFACheck at hne hall ⊢
      by_cases hlen : users.length > 0
      · simp only [hlen, if_pos] at hall ⊢
        have : users.all isMfaEnabled = true := by
          rw [List.all_eq_true]
          intro u hu
          have := hall { id := u.id, email := u.email, phone := u.phone
                         mfa_enabled := isMfaEnabled u }
            (List.mem_map.mpr ⟨u, hu, rfl⟩)
          exact this
        simp [this]
      · simp [hlen] at hne
  · unfold runMFACheck
    by_cases hlen : users.length > 0
    · simp [hlen]
    · have : users = [] := by
        cases users with
        | nil => rfl
        | cons a l => simp at hlen
      subst this
      simp
  · intro u
    unfold isMfaEnabled
    cases hf : u.factors with
    | none => simp
    | some fs =>
      simp only [Option.getD_some, List.any_eq_true]
      constructor
      · rintro ⟨f, hf, hst⟩
        exact ⟨f, hf, by simpa using hst⟩
      · rintro ⟨f, hf, hst⟩
        exact ⟨f, hf, by simpa using hst⟩
  · intro h
    subst h
    constructor <;> rfl
  · intro hne hnot
    unfold runMFACheck
    have hlen : users.length > 0 := by
      cases users with
      | nil => exact absurd rfl hne
      | cons a l => simp
    simp only [hlen, if_pos]
    have : users.all isMfaEnabled = false := by
      rw [Bool.eq_false_iff]
      intro hall
      exact hnot fun u hu => List.all_eq_true.mp hall u hu
    simp [this]

/-- Witness for C1 at a concrete input: one user with no verified factor
gives `FAILING`. -/
theorem c1_mfa_status_witness :
    (runMFACheck (.ok [sampleUnverifiedUser])).overallStatus = "FAILING" :=
  (c1_mfa_status [sampleUnverifiedUser]).2.2.2.2
    (by decide)
    (by intro h; exact absurd (h sampleUnverifiedUser (by simp)) (by decide))

/-! ### C2 -/

/-- **C2.** On a successful query sequence: `overallStatus = PASSING`
iff every listed table has its RLS flag set (when at least one table
exists); zero tables give `N/A` with an explanatory message and never
`PASSING`; each entry's tally is exactly the four per-command counts
(rows of unrecognized command kinds counted nowhere); and each entry
carries the remediation hint exactly when its flag is false. -/
theorem c2_rls_status (connStr : Option String) (tables : List TableInfo) :
    (tables ≠ [] →
      ((runRLSCheck connStr (.ok tables)).overallStatus = "PASSING" ↔
        ∀ e ∈ (runRLSCheck connStr (.ok tables)).tables, e.rls_enabled = true)) ∧
    (tables = [] →
      (runRLSCheck connStr (.ok tables)).overallStatus = "N/A" ∧
      (runRLSCheck connStr (.ok tables)).message = some "No tables found in public schema." ∧
      (runRLSCheck connStr (.ok tables)).overallStatus ≠ "PASSING") ∧
    ((runRLSCheck connStr (.ok tables)).tables = tables.map mkRLSEntry) ∧
    (∀ e ∈ (runRLSCheck connStr (.ok tables)).tables,
      e.policy_counts =
        ⟨cntCmd "SELECT" e.current_policies, cntCmd "INSERT" e.current_policies,
         cntCmd "UPDATE" e.current_policies, cntCmd "DELETE" e.current_policies⟩) ∧
    (∀ e ∈ (runRLSCheck connStr (.ok tables)).tables,
      e.recommendation =
        if e.rls_enabled then none
        else some "Enable RLS for this table to restrict access.") := by
  refine ⟨?_, ?_, ?_, ?_, ?_⟩
  · intro hne
    have hemp : tables.isEmpty = false := by
      cases tables with
      | nil => exact absurd rfl hne
      | cons a l => rfl
    constructor
    · intro h
      unfold runRLSCheck at h ⊢
      simp only [hemp, Bool.false_eq_true, if_false] at h ⊢
      by_cases hall : tables.all (fun t => t.relrowsecurity)
      · intro e he
        simp only [hall, if_pos, List.mem_map] at he
        obtain ⟨t, ht, rfl⟩ := he
        simpa [mkRLSEntry] using List.all_eq_true.mp hall t ht
      · simp only [hall, if_neg, if_false] at h
        exact absurd h (by decide)
    · intro h
      unfold runRLSCheck at h ⊢
      simp only [hemp, Bool.false_eq_true, if_false] at h ⊢
      have hall : tables.all (fun t => t.relrowsecurity) = true := by
        rw [List.all_eq_true]
        intro t ht
        have := h (mkRLSEntry t) (List.mem_map.mpr ⟨t, ht, rfl⟩)
        simpa [mkRLSEntry] using this
      simp [hall]
  · intro h
    subst h
    refine ⟨rfl, rfl, by simp [runRLSCheck]⟩
  · unfold runRLSCheck
    cases tables with
    | nil => simp
    | cons a l => simp
  · intro e he
    unfold runRLSCheck at he
    cases tables with
    | nil => simp at he
    | cons a l =>
      simp only [List.isEmpty_cons, Bool.false_eq_true, if_false, List.mem_map] at he
      obtain ⟨t, _, rfl⟩ := he
      simp [mkRLSEntry, tallyPolicies_spec]
  · intro e he
    unfold runRLSCheck at he
    cases tables with
    | nil => simp at he
    | cons a l =>
      simp only [List.isEmpty_cons, Bool.false_eq_true, if_false, List.mem_map] at he
      obtain ⟨t, _, rfl⟩ := he
      by_cases hr : t.relrowsecurity <;> simp [mkRLSEntry, hr]

/-- Witness for C2 at a concrete input: one table with the flag off gives
a non-`PASSING` status, the `ALL` row lands in no bucket, and the
remediation hint is attached. -/
theorem c2_rls_status_witness :
    (runRLSCheck none (.ok [sampleTable])).overallStatus = "FAILING" ∧
    (runRLSCheck none (.ok [sampleTable])).tables = [sampleTable].map mkRLSEntry ∧
    tallyPolicies sampleTable.policies = ⟨1, 0, 0, 0⟩ := by
  have h := c2_rls_status none [sampleTable]
  refine ⟨?_, h.2.2.1, by decide⟩
  have hiff := h.1 (by simp)
  by_cases hp : (runRLSCheck none (.ok [sampleTable])).overallStatus = "PASSING"
  · exfalso
    have := (hiff.mp hp) (mkRLSEntry sampleTable) (by rw [h.2.2.1]; simp)
    simp [mkRLSEntry, sampleTable] at this
  · decide

/-! ### C3 -/

/-- **C3.** The run-checks response contains all three records, each the
value of its own check; the inputs of the other two checks never affect a
record (fault isolation across the `Promise.all` join); each check's
`catch` converts an internal failure into an `ERROR` record with the
failure's message preserved; and an upstream HTTP 403 on the project
listing yields an `ERROR` record whose message contains `403`. -/
theorem c3_fault_isolation
    (m m2 : Except String (List AuthUser)) (cs cs2 : Option String)
    (r r2 : Except String (List TableInfo)) (tok tok2 : Option String)
    (p p2 : Except (Nat × String) (List PITRProject))
    (msg tokv body : String) (htok : tokv.isEmpty = false) :
    ((runChecks m cs r tok p).mfa = runMFACheck m ∧
     (runChecks m cs r tok p).rls = runRLSCheck cs r ∧
     (runChecks m cs r tok p).pitr = (runPITR tok p).1) ∧
    ((runChecks m cs r tok p).rls = (runChecks m2 cs r tok2 p2).rls ∧
     (runChecks m cs r tok p).pitr = (runChecks m2 cs2 r2 tok p).pitr ∧
     (runChecks m cs r tok p).mfa = (runChecks m cs2 r2 tok2 p2).mfa) ∧
    ((runMFACheck (.error msg)).overallStatus = "ERROR" ∧
     (runMFACheck (.error msg)).error = some msg) ∧
    ((runRLSCheck cs (.error msg)).overallStatus = "ERROR" ∧
     (runRLSCheck cs (.error msg)).error = some msg) ∧
    ((runPITR (some tokv) (.error (403, body))).1.status = "ERROR" ∧
     strContains (runPITR (some tokv) (.error (403, body))).1.message "403" = true) := by
  refine ⟨⟨rfl, rfl, rfl⟩, ⟨rfl, rfl, rfl⟩, ⟨rfl, rfl⟩, ⟨rfl, rfl⟩, ?_, ?_⟩
  · simp [runPITR, jsFalsy, htok]
  · have hmsg : (runPITR (some tokv) (.error (403, body))).1.message =
        (("Failed to fetch projects: " ++ toString (403 : Nat)) ++ " ") ++ body := by
      simp [runPITR, jsFalsy, htok]
    rw [strContains, hmsg]
    have hdata : ((("Failed to fetch projects: " ++ toString (403 : Nat)) ++ " ") ++ body).data =
        (("Failed to fetch projects: " ++ toString (403 : Nat)) ++ " ").data ++ body.data := by
      cases body with
      | mk bd => rfl
    rw [hdata]
    exact listHas_append_left _ _ _ (by decide)

/-- Witness for C3 at concrete inputs: the user listing fails with a 403
message while the RLS and PITR records are unaffected and complete. -/
theorem c3_fault_isolation_witness :
    (runChecks (.error "HTTP 403 Forbidden") none (.ok [sampleTable]) (some "tk")
        (.ok [])).mfa.overallStatus = "ERROR" ∧
    (runChecks (.error "HTTP 403 Forbidden") none (.ok [sampleTable]) (some "tk")
        (.ok [])).rls = runRLSCheck none (.ok [sampleTable]) ∧
    (runPITR (some "tk") (.error (403, "Forbidden"))).1.status = "ERROR" ∧
    strContains (runPITR (some "tk") (.error (403, "Forbidden"))).1.message "403" = true := by
  have h := c3_fault_isolation (.error "HTTP 403 Forbidden") (.error "HTTP 403 Forbidden")
    none none (.ok [sampleTable]) (.ok [sampleTable]) (some "tk") (some "tk")
    (.ok []) (.ok []) "HTTP 403 Forbidden" "tk" "Forbidden" (by decide)
  refine ⟨?_, h.1.2.1, h.2.2.2.2.1, h.2.2.2.2.2⟩
  rw [h.1.1]
  exact h.2.2.1.1

/-! ### C5 -/

/-- **C5 (counterexample).** With the management token absent, the
recovery check reports `ERROR` — a failure status — not the
`MANUAL_CHECK_REQUIRED` the claim states (though indeed no outbound call
is made). -/
theorem c5_manual_check_refuted :
    (runPITR none (.ok [])).1.status = "ERROR" ∧
    (runPITR none (.ok [])).1.status ≠ "MANUAL_CHECK_REQUIRED" ∧
    (runPITR none (.ok [])).2 = false := by
  decide

/-- **C5 (amended).** When the management token is absent (or empty), the
recovery check returns `status = "ERROR"` with the explanatory message
naming the missing `SUPABASE_PAT`, without making any outbound call. -/
theorem c5_pitr_token_absent (env : Except (Nat × String) (List PITRProject)) :
    (runPITR none env).1.status = "ERROR" ∧
    (runPITR none env).1.message =
      "Management API token (SUPABASE_PAT) is not configured" ∧
    (runPITR none env).2 = false ∧
    (runPITR (some "") env).1.status = "ERROR" ∧
    (runPITR (some "") env).2 = false :=
  ⟨rfl, rfl, rfl, rfl, rfl⟩

/-- Witness for the amended C5 at a concrete fetch environment. -/
theorem c5_pitr_token_absent_witness :
    (runPITR none (Except.ok ([] : List PITRProject))).1.status = "ERROR" :=
  (c5_pitr_token_absent (.ok [])).1

/-! ### Further helper lemmas -/

/-- Every list is a leading segment of itself. -/
theorem listLead_refl (xs : List Char) : listLead xs xs = true := by
  induction xs with
  | nil => rfl
  | cons a as ih => simp [listLead, ih]

/-- An occurrence inside `ys` is an occurrence inside `xs ++ ys`. -/
theorem listHas_append_right (pat xs ys : List Char) (h : listHas pat ys = true) :
    listHas pat (xs ++ ys) = true := by
  induction xs with
  | nil => simpa using h
  | cons b bs ih =>
    simp only [List.cons_append, listHas, Bool.or_eq_true]
    exact Or.inr ih

/-- Every list occurs inside itself. -/
theorem listHas_self (xs : List Char) : listHas xs xs = true := by
  cases xs with
  | nil => rfl
  | cons a as =>
    simp only [listHas, Bool.or_eq_true]
    exact Or.inl (listLead_refl _)

/-- Quote counting distributes over string append. -/
theorem quoteCount_append (a b : String) :
    quoteCount (a ++ b) = quoteCount a + quoteCount b := by
  cases a with
  | mk ad =>
    cases b with
    | mk bd =>
      show (List.filter _ (ad ++ bd)).length = _
      simp [quoteCount, List.filter_append]

/-! ### C4 -/

/-- **C4 (counterexample).** The claim fails three ways at concrete
inputs: a present but scheme-less `projectEndpoint` makes run-checks
reply 500 (not the claimed 400); the same input makes the RLS fix proceed
to its database call with no scheme validation at all; and an absent
`projectEndpoint` makes the MFA fix crash with an uncaught `TypeError`
instead of a structured error. -/
theorem c4_invalid_input_refuted :
    runChecksEntry (some "ftp://example.com") (some "service-key") =
      .reply 500 ("Failed to connect to Supabase or run checks: " ++ invalidUrlMsg) ∧
    (runChecksEntry (some "ftp://example.com") (some "service-key")).statusCode ≠ some 400 ∧
    fixRlsEntry (some "ftp://example.com") (some "service-key") (some "orders") = .proceed ∧
    fixMfaEntry none (some "service-key") (some "u1") = .jsCrash undefinedIncludesMsg := by
  decide

/-- **C4 (amended).** Presence of `projectEndpoint`/`adminKey` (and the
operation's other required field) is validated with a 400 reply and a
human-readable message before any outbound call — except that fix-MFA and
fix-recovery crash with an uncaught `TypeError` when `projectEndpoint`
itself is absent.  The scheme test exists only in run-checks and fix-MFA
(inside client construction) and surfaces as a 500 reply, still before
any outbound call; the RLS fix, the recovery fix and the assistant never
check the scheme and proceed to their outbound calls. -/
theorem c4_validation_amended (u k i t ref tok : String)
    (hu : u.isEmpty = false) (hk : k.isEmpty = false) (hi : i.isEmpty = false)
    (ht : t.isEmpty = false) (href : ref.isEmpty = false) (htok : tok.isEmpty = false) :
    (runChecksEntry none (some k) =
      .reply 400 "Supabase Project URL and Service Key are required.") ∧
    (runChecksEntry (some u) none =
      .reply 400 "Supabase Project URL and Service Key are required.") ∧
    (fixRlsEntry (some u) (some k) none = .reply 400 "Table Name is required.") ∧
    (fixRlsEntry none (some k) (some t) =
      .reply 400 "Project URL and Service Key are required.") ∧
    (fixMfaEntry (some u) (some k) none =
      .reply 400 "Project URL, Service Key, and User ID are required.") ∧
    (fixMfaEntry (some u) none (some i) =
      .reply 400 "Project URL, Service Key, and User ID are required.") ∧
    (fixPitrEntry (some u) (some k) none (some tok) =
      .reply 400 "Project URL, Service Key, and Project Ref are required.") ∧
    (aiAssistEntry none (some k) (some i) =
      .reply 400 "Project URL, Service Key, and Issue description are required.") ∧
    (schemeOk u = false →
      runChecksEntry (some u) (some k) =
        .reply 500 ("Failed to connect to Supabase or run checks: " ++ invalidUrlMsg) ∧
      fixMfaEntry (some u) (some k) (some i) =
        .reply 500 ("Failed to enable MFA for user " ++ i ++ ": " ++ invalidUrlMsg)) ∧
    (fixMfaEntry none (some k) (some i) = .jsCrash undefinedIncludesMsg) ∧
    (fixPitrEntry none (some k) (some ref) (some tok) = .jsCrash undefinedIncludesMsg) ∧
    (fixRlsEntry (some u) (some k) (some t) = .proceed) ∧
    (fixPitrEntry (some u) (some k) (some ref) (some tok) = .proceed) ∧
    (aiAssistEntry (some u) (some k) (some i) = .proceed) := by
  refine ⟨?_, ?_, ?_, ?_, ?_, ?_, ?_, ?_, ?_, rfl, rfl, ?_, ?_, ?_⟩
  · simp [runChecksEntry, jsFalsy]
  · simp [runChecksEntry, jsFalsy, hu]
  · simp [fixRlsEntry, jsFalsy]
  · simp [fixRlsEntry, jsFalsy, ht]
  · simp [fixMfaEntry, jsFalsy, hu, hk]
  · simp [fixMfaEntry, jsFalsy, hu]
  · simp [fixPitrEntry, jsFalsy, hu, hk]
  · simp [aiAssistEntry, jsFalsy]
  · intro hsch
    constructor
    · simp [runChecksEntry, jsFalsy, hu, hk, hsch]
    · simp [fixMfaEntry, jsFalsy, hu, hk, hi, hsch]
  · simp [fixRlsEntry, jsFalsy, hu, hk, ht]
  · simp [fixPitrEntry, jsFalsy, hu, hk, href, htok]
  · simp [aiAssistEntry, jsFalsy, hu, hk, hi]

/-- Witness for the amended C4 at concrete inputs. -/
theorem c4_validation_amended_witness :
    runChecksEntry none (some "service-key") =
      .reply 400 "Supabase Project URL and Service Key are required." ∧
    fixPitrEntry (some "ftp://e.co") (some "service-key") (some "ref1") (some "tk") =
      .proceed ∧
    runChecksEntry (some "ftp://e.co") (some "service-key") =
      .reply 500 ("Failed to connect to Supabase or run checks: " ++ invalidUrlMsg) := by
  have h := c4_validation_amended "ftp://e.co" "service-key" "u1" "orders" "ref1" "tk"
    (by decide) (by decide) (by decide) (by decide) (by decide) (by decide)
  exact ⟨h.1, h.2.2.2.2.2.2.2.2.2.2.2.2.1,
    (h.2.2.2.2.2.2.2.2.1 (by decide)).1⟩

/-! ### C6 -/

/-- **C6 (code bug).** With no connection string supplied, the check is
not guarded: the `undefined` string is handed to the pool (whose result
is the same as with any other connection string), the default connection
attempt fails with a driver message, and the resulting `ERROR` record's
message is that driver text — it does not identify the missing
connection-string input. -/
theorem c6_missing_connstring_bug :
    runRLSCheck none (.error "connect ECONNREFUSED 127.0.0.1:5432") =
      { checkName := "Row Level Security (RLS)", overallStatus := "ERROR",
        tables := [], error := some "connect ECONNREFUSED 127.0.0.1:5432", message := none } ∧
    strContains "connect ECONNREFUSED 127.0.0.1:5432" "connection string" = false ∧
    runRLSCheck none (.error "connect ECONNREFUSED 127.0.0.1:5432") =
      runRLSCheck (some "postgres://u@h/db") (.error "connect ECONNREFUSED 127.0.0.1:5432") := by
  refine ⟨rfl, by decide, rfl⟩

/-! ### C7 -/

/-- **C7.** The RLS fix is idempotent: after one and after two
applications the flag is enabled; the first call inserts the placeholder
iff the table had zero policy rows; the second call issues only the
enable-flag statement; starting from at most one placeholder, at most one
placeholder exists after two calls; and a table with existing policies
gets exactly the enable-flag statement with its policies untouched. -/
theorem c7_fix_rls_idempotent (t : String) (s : TableState) :
    ((fixRlsApply t s).1.rls_enabled = true) ∧
    ((fixRlsApply t (fixRlsApply t s).1).1.rls_enabled = true) ∧
    ((fixRlsApply t s).2 =
      if s.policies = [] then [alterTableStmt t, createPolicyStmt t]
      else [alterTableStmt t]) ∧
    ((fixRlsApply t (fixRlsApply t s).1).2 = [alterTableStmt t]) ∧
    (countPlaceholder s.policies ≤ 1 →
      countPlaceholder (fixRlsApply t (fixRlsApply t s).1).1.policies ≤ 1) ∧
    (s.policies ≠ [] →
      (fixRlsApply t s).2 = [alterTableStmt t] ∧
      (fixRlsApply t s).1.policies = s.policies) := by
  by_cases hp : s.policies = []
  · refine ⟨?_, ?_, ?_, ?_, ?_, ?_⟩
    · simp [fixRlsApply, hp]
    · simp [fixRlsApply, hp]
    · simp [fixRlsApply, hp]
    · simp [fixRlsApply, hp]
    · intro _
      simp [fixRlsApply, hp, countPlaceholder, placeholderPolicy]
    · intro h
      exact absurd hp h
  · have hlen : s.policies.length ≠ 0 := fun h => hp (List.length_eq_zero.mp h)
    have hbeq : (s.policies.length == 0) = false := by simpa using hlen
    refine ⟨?_, ?_, ?_, ?_, ?_, ?_⟩
    · simp [fixRlsApply, hbeq]
    · simp [fixRlsApply, hbeq]
    · simp [fixRlsApply, hbeq, hp]
    · simp [fixRlsApply, hbeq]
    · intro hc
      simpa [fixRlsApply, hbeq] using hc
    · intro _
      simp [fixRlsApply, hbeq]

/-- Witness for C7 at scenario C's input: the `orders` table with two
existing SELECT policies gets only the enable-flag statement, and two
applications leave at most one placeholder. -/
theorem c7_fix_rls_idempotent_witness :
    (fixRlsApply "orders" ordersState).2 = [alterTableStmt "orders"] ∧
    (fixRlsApply "orders" ordersState).1.rls_enabled = true ∧
    countPlaceholder
      (fixRlsApply "orders" (fixRlsApply "orders" ordersState).1).1.policies ≤ 1 := by
  have h := c7_fix_rls_idempotent "orders" ordersState
  exact ⟨(h.2.2.2.2.2 (by decide)).1, h.1, h.2.2.2.2.1 (by decide)⟩

/-! ### C8 -/

/-- **C8 (code bug).** With the recovery addon already present, the fix
issues no mutation call but — because the already-enabled branch
dereferences the `res` shadowed by the later `const res = await fetch`
inside the same `try` block — replies 500 with the temporal-dead-zone
`ReferenceError` message instead of the claimed success message; with the
addon absent, the mutation call carrying the 7-day retention window is
issued. -/
theorem c8_fix_pitr_bug :
    fixPitrCore "myproj" (.ok (some [samplePitrAddon])) true "" =
      (.err500 ("Failed to enable PITR for project myproj: " ++ tdzRefErrMsg), []) ∧
    (fixPitrCore "myproj" (.ok (some [samplePitrAddon])) true "").2 = [] ∧
    fixPitrCore "myproj" (.ok (some [])) true "" =
      (.noResponse, [{ projectRef := "myproj", retention_period_days := 7 }]) := by
  decide

/-! ### C9 -/

/-- **C9 (code bug).** On every run-checks request passing validation,
line 399's `console.log(projectUrl, serviceKey)` puts the admin service
key verbatim into the process log output. -/
theorem c9_key_logged_bug (projectUrl serviceKey : String) :
    ((runChecksConsole projectUrl serviceKey).any fun line =>
      strContains line serviceKey) = true := by
  have hline : strContains (projectUrl ++ " " ++ serviceKey) serviceKey = true := by
    unfold strContains
    have hdata : ((projectUrl ++ " ") ++ serviceKey).data =
        (projectUrl ++ " ").data ++ serviceKey.data := by
      cases serviceKey with
      | mk kd =>
        cases hpu : (projectUrl ++ " ") with
        | mk pd => rfl
    rw [hdata]
    exact listHas_append_right _ _ _ (listHas_self _)
  simp [runChecksConsole, hline]

/-- Witness for C9 at a concrete request. -/
theorem c9_key_logged_bug_witness :
    ((runChecksConsole "https://abc.supabase.co" "sk-secret-123").any fun line =>
      strContains line "sk-secret-123") = true :=
  c9_key_logged_bug "https://abc.supabase.co" "sk-secret-123"

/-! ### C10 -/

/-- **C10.** The RLS fix validates only the presence of `tableName`; the
two statements are built by splicing it verbatim and unescaped into the
fixed templates; consequently each statement has exactly the template's
quote delimiters (2 and 4) plus one per double quote inside `tableName`,
so a `tableName` containing a double quote changes the quoting structure
of the issued statements. -/
theorem c10_sql_splice (t : String) :
    (alterTableStmt t = "ALTER TABLE public.\"" ++ t ++ "\" ENABLE ROW LEVEL SECURITY;") ∧
    (createPolicyStmt t =
      "CREATE POLICY \"placeholder_policy\" ON public.\"" ++ t ++
        "\" FOR SELECT USING (true);") ∧
    (quoteCount (alterTableStmt t) = 2 + quoteCount t) ∧
    (quoteCount (createPolicyStmt t) = 4 + quoteCount t) ∧
    (quoteCount t ≠ 0 →
      quoteCount (alterTableStmt t) ≠ 2 ∧ quoteCount (createPolicyStmt t) ≠ 4) ∧
    (t.isEmpty = false →
      fixRlsEntry (some "https://proj.supabase.co") (some "key") (some t) = .proceed) := by
  have hA : quoteCount (alterTableStmt t) = 2 + quoteCount t := by
    unfold alterTableStmt
    rw [quoteCount_append, quoteCount_append]
    have h1 : quoteCount "ALTER TABLE public.\"" = 1 := by decide
    have h2 : quoteCount "\" ENABLE ROW LEVEL SECURITY;" = 1 := by decide
    omega
  have hC : quoteCount (createPolicyStmt t) = 4 + quoteCount t := by
    unfold createPolicyStmt
    rw [quoteCount_append, quoteCount_append]
    have h1 : quoteCount "CREATE POLICY \"placeholder_policy\" ON public.\"" = 3 := by decide
    have h2 : quoteCount "\" FOR SELECT USING (true);" = 1 := by decide
    omega
  refine ⟨rfl, rfl, hA, hC, fun hq => ⟨by omega, by omega⟩, ?_⟩
  intro ht
  simp only [fixRlsEntry, jsFalsy, ht]
  decide

/-- Witness for C10 at a quoted table name: the statement's quoting
structure differs from the clean-name structure, yet validation passes. -/
theorem c10_sql_splice_witness :
    quoteCount (alterTableStmt "ord\"ers") ≠ 2 ∧
    fixRlsEntry (some "https://proj.supabase.co") (some "key") (some "ord\"ers") =
      .proceed := by
  have h := c10_sql_splice "ord\"ers"
  exact ⟨(h.2.2.2.2.1 (by decide)).1, h.2.2.2.2.2 (by decide)⟩

end SCC
